import Mathlib

/-!
Verification of the SofCar booking API (Flask, `src/app.py` and the service-layer
modules `src/database.py`, `src/utils.py`, `src/validators.py`, `src/config.py`).

The deployed application (`passenger_wsgi.py` imports `app`) is `src/app.py`;
its route handlers and helpers are embedded below as pure Lean functions.
External effects (the Supabase record store, EmailJS, wall-clock time, the JSON
body) are passed in explicitly: record-store rows are lists, each fallible
external call is given a fault flag whose value the handler branches on exactly
as the Python code branches on a raised exception.

Dates: the Python code stores dates as `YYYY-MM-DD` strings and compares them
both lexicographically (in Supabase filters) and chronologically (after
`datetime.strptime(.., '%Y-%m-%d').date()`); for ISO date strings the two
orders coincide, so a date is embedded as its civil (year, month, day) triple
and compared through its proleptic-Gregorian day number `civilToDays`
(the standard days-from-civil algorithm, checked against Python's
`date.toordinal`).
-/

namespace SofCar

/-- A civil calendar date, the parse of a `YYYY-MM-DD` string. -/
structure Date where
  year : Int
  month : Nat
  day : Nat
  deriving Repr, DecidableEq

/-- Day number of a civil date (proleptic Gregorian), matching the difference
arithmetic of Python's `datetime.date` subtraction: `(e - s).days =
civilToDays e - civilToDays s`. -/
def civilToDays (d : Date) : Int :=
  let y : Int := if d.month ≤ 2 then d.year - 1 else d.year
  let era : Int := (if 0 ≤ y then y else y - 399) / 400
  let yoe : Int := y - era * 400
  let mp : Int := (d.month : Int) + (if 2 < d.month then -3 else 9)
  let doy : Int := (153 * mp + 2) / 5 + (d.day : Int) - 1
  let doe : Int := yoe * 365 + yoe / 4 - yoe / 100 + doy
  era * 146097 + doe - 719468

/-- A `datetime.datetime` value: a date plus a time-of-day component.
`strptime(s, '%Y-%m-%d')` yields such a value with time 0; `.date()` drops
the time component. -/
structure PyDateTime where
  date : Date
  secondsOfDay : Nat
  deriving Repr, DecidableEq

/-- A row of the `cars` table (the fields the booking engine reads). -/
structure Car where
  id : String
  price_per_day : Rat
  deposit_amount : Rat
  is_active : Bool
  deriving Repr, DecidableEq

/-- A row of the `bookings` table. -/
structure Booking where
  id : String
  car_id : String
  start_date : Date
  end_date : Date
  client_last_name : String
  client_first_name : String
  client_email : String
  client_phone : String
  total_price : Rat
  status : String
  payment_method : String
  deposit_amount : Rat
  deposit_status : String
  ip_address : String
  notes : String
  created_at : String
  updated_at : String
  deriving Repr, DecidableEq

/-- One rate-limit bucket: `{'count': .., 'reset_time': ..}` (src/app.py line 224). -/
structure RateBucket where
  count : Nat
  reset_time : Int
  deriving Repr, DecidableEq

/-- HTTP responses produced by the embedded handlers. -/
inductive HttpResp where
  | ok200 (booking : Booking)
  | ok201 (booking : Booking)
  | badRequest (msg : String)
  | notFound (msg : String)
  | conflict (msg : String)
  | tooMany (msg : String)
  | serverError (msg : String)
  | unavailable (msg : String)
  deriving Repr, DecidableEq

/-- `rate_limit_window = 3600` (src/app.py line 126). `time.time()` values are
modelled at integer granularity, which preserves their ordering. -/
def rate_limit_window : Int := 3600

/-- `rate_limit_max_requests = 3` (src/app.py line 127). -/
def rate_limit_max_requests : Nat := 3

/-- Lookup in the in-memory dict `rate_limit_storage` keyed by client IP. -/
def lookupBucket (storage : List (String × RateBucket)) (ip : String) : Option RateBucket :=
  (storage.find? (fun p => p.1 == ip)).map (fun p => p.2)

/-- Dict assignment `storage[ip] = b`: replace the existing entry in place, or
append a new one (Python dicts keep insertion order). -/
def setBucket : List (String × RateBucket) → String → RateBucket → List (String × RateBucket)
  | [], ip, b => [(ip, b)]
  | (k, v) :: rest, ip, b =>
      if k == ip then (k, b) :: rest else (k, v) :: setBucket rest ip b

/-- `check_rate_limit` (src/app.py lines 218-236): create the bucket if absent,
reset it if the window expired, then reject (raise `TooManyRequests`, embedded
as `false`) when the count has reached the maximum, else increment and admit. -/
def check_rate_limit (storage : List (String × RateBucket)) (ip : String) (now : Int) :
    Bool × List (String × RateBucket) :=
  let s1 := if (lookupBucket storage ip).isNone
            then setBucket storage ip ⟨0, now + rate_limit_window⟩ else storage
  let s2 := match lookupBucket s1 ip with
            | some b =>
                if now > b.reset_time then setBucket s1 ip ⟨0, now + rate_limit_window⟩ else s1
            | none => s1
  match lookupBucket s2 ip with
  | some b =>
      if rate_limit_max_requests ≤ b.count then (false, s2)
      else (true, setBucket s2 ip ⟨b.count + 1, b.reset_time⟩)
  | none => (false, s2)

/-- Number of admitted calls when `check_rate_limit` is run once per element of
`times` (threading the storage through). -/
def run_rate_limit (storage : List (String × RateBucket)) (ip : String) : List Int → Nat
  | [] => 0
  | t :: ts =>
      let r := check_rate_limit storage ip t
      (if r.1 then 1 else 0) + run_rate_limit r.2 ip ts

/-- The Supabase overlap filter of `check_car_availability_atomic`
(src/app.py line 529) and of `DatabaseService.check_car_availability`
(src/database.py line 128): status in `{confirmed, pending}`,
`lte("start_date", end_date)`, `gt("end_date", start_date)`. -/
def overlap_filter (carId : String) (s e : Date) (b : Booking) : Bool :=
  b.car_id == carId &&
  (b.status == "confirmed" || b.status == "pending") &&
  decide (civilToDays b.start_date ≤ civilToDays e) &&
  decide (civilToDays s < civilToDays b.end_date)

/-- `check_car_availability_atomic` (src/app.py lines 521-541): run the overlap
query (`queryRaises` embeds the `except Exception` branch), report unavailable
with a reason when any row matches. -/
def check_car_availability_atomic (bookings : List Booking) (queryRaises : Bool)
    (carId : String) (s e : Date) : Bool × Option String :=
  if queryRaises then (false, some "Error checking availability")
  else
    let query1 := bookings.filter (overlap_filter carId s e)
    if query1.isEmpty then (true, none)
    else (false, some "Car is booked for overlapping dates")

/-- `DatabaseService.check_car_availability` (src/database.py lines 122-140);
its body is the same query and the same handling as the app-level helper. -/
def DatabaseService.check_car_availability (bookings : List Booking) (queryRaises : Bool)
    (carId : String) (s e : Date) : Bool × Option String :=
  if queryRaises then (false, some "Error checking availability")
  else
    let query := bookings.filter (overlap_filter carId s e)
    if query.isEmpty then (true, none)
    else (false, some "Car is booked for overlapping dates")

/-- Availability in the words of the spec (for comparison with the code's
query): unavailable exactly when some holding booking satisfies the half-open
test `existing.start < requested.end AND existing.end > requested.start`. -/
def spec_half_open_available (bookings : List Booking) (carId : String) (s e : Date) : Bool :=
  !(bookings.any (fun b =>
      b.car_id == carId &&
      (b.status == "confirmed" || b.status == "pending") &&
      decide (civilToDays b.start_date < civilToDays e) &&
      decide (civilToDays s < civilToDays b.end_date)))

/-- `(end - start).days` for two parsed dates, as computed throughout
src/app.py (lines 395, 1178, 1231). -/
def rental_days (s e : Date) : Int :=
  civilToDays e - civilToDays s

/-- The body of `calculate_total_price` after parsing, operating on the
`datetime` values and calling `.date()` on each (src/app.py lines 391-398). -/
def priceFromDateTimes (car_price : Rat) (s e : PyDateTime) : Rat :=
  let start := s.date
  let stop := e.date
  let days : Int := civilToDays stop - civilToDays start
  car_price * (days : Rat)

/-- `calculate_total_price` (src/app.py lines 391-398, identically
src/utils.py lines 30-37): parse both `YYYY-MM-DD` strings (giving midnight
datetimes), take `.date()`, multiply the day difference by the daily price. -/
def calculate_total_price (car_price : Rat) (start_date end_date : Date) : Rat :=
  priceFromDateTimes car_price ⟨start_date, 0⟩ ⟨end_date, 0⟩

/-- In-memory server state: the two process-wide dicts of src/app.py
(`rate_limit_storage` line 121, `booking_locks` line 130) together with the two
record-store tables the booking engine touches. -/
structure ServerState where
  rate_limit_storage : List (String × RateBucket)
  booking_locks : List (String × Int)
  cars : List Car
  bookings : List Booking
  deriving Repr, DecidableEq

/-- The validated JSON body of a `POST /bookings` request, i.e. the
`validated_data` dict: the required fields plus the optional
`payment_method` / `notes` read with `.get(..)` defaults. -/
structure BookingRequest where
  car_id : String
  start_date : Date
  end_date : Date
  client_last_name : String
  client_first_name : String
  client_email : String
  client_phone : String
  payment_method : Option String
  notes : Option String
  deriving Repr, DecidableEq

/-- The request's environment: wall-clock values, the client IP, the JSON body,
the verdict of `validate_booking_data` (a pure field/format/date-policy check
over the raw body, src/app.py lines 324-389, whose internals no claim touches —
only its pass/fail short-circuit matters here), and one fault flag per fallible
external call, each embedding the corresponding raised exception or empty
result set. -/
structure Env where
  now : Int
  nowIso : String
  client_ip : String
  jsonBody : Option BookingRequest
  validationError : Option String
  dbAvailable : Bool
  carFetchRaises : Bool
  availQueryRaises : Bool
  insertRaises : Bool
  insertReturnsNoData : Bool
  emailRaises : Bool
  newBookingId : String
  deriving Repr, DecidableEq

/-- The `booking_data` dict built by `create_booking` (src/app.py lines
1234-1250), completed by the store with the generated row id; `rental_days` is
computed (line 1231) but not stored. -/
def new_booking_row (env : Env) (req : BookingRequest) (car : Car) : Booking :=
  { id := env.newBookingId
    car_id := req.car_id
    start_date := req.start_date
    end_date := req.end_date
    client_last_name := req.client_last_name.trim
    client_first_name := req.client_first_name.trim
    client_email := req.client_email.trim.toLower
    client_phone := req.client_phone.trim
    total_price := calculate_total_price car.price_per_day req.start_date req.end_date
    status := "pending"
    payment_method := req.payment_method.getD "cash"
    deposit_amount := car.deposit_amount
    deposit_status := "pending"
    ip_address := env.client_ip
    notes := req.notes.getD ""
    created_at := env.nowIso
    updated_at := "" }

/-- The email block of `create_booking` (src/app.py lines 1262-1273): the two
EmailJS calls, which may raise. -/
def send_booking_emails (raises : Bool) : Except String Unit :=
  if raises then Except.error "email dispatch failed" else Except.ok ()

/-- `cars` fetch of `create_booking` (src/app.py line 1215):
`select('*').eq('id', car_id).eq('is_active', True)`, taking `data[0]`. -/
def fetch_active_car (cars : List Car) (carId : String) : Option Car :=
  (cars.filter (fun c => c.id == carId && c.is_active)).head?

/-- The inner `try:` block of `create_booking` (src/app.py lines 1213-1280):
car re-fetch, availability check, price computation, insert, email dispatch
(whose failure is caught and only logged). A raised record-store exception
propagates out of this block to the outer `except Exception` handler (line
1291), which answers 500 "Failed to create booking"; the same response is
produced when the insert returns no rows (line 1256). -/
def create_booking_locked (st : ServerState) (env : Env) (req : BookingRequest) :
    HttpResp × ServerState :=
  if env.carFetchRaises then (HttpResp.serverError "Failed to create booking", st)
  else
    match fetch_active_car st.cars req.car_id with
    | none => (HttpResp.notFound "Car not found", st)
    | some car =>
      let availRes := check_car_availability_atomic st.bookings env.availQueryRaises
        req.car_id req.start_date req.end_date
      if !availRes.1 then (HttpResp.conflict (availRes.2.getD ""), st)
      else
        let row := new_booking_row env req car
        if env.insertRaises then (HttpResp.serverError "Failed to create booking", st)
        else if env.insertReturnsNoData then
          (HttpResp.serverError "Failed to create booking", st)
        else
          let st1 := { st with bookings := st.bookings ++ [row] }
          match send_booking_emails env.emailRaises with
          | Except.ok _ => (HttpResp.ok201 row, st1)
          | Except.error _ => (HttpResp.ok201 row, st1)

/-- `create_booking`, the `POST /bookings` handler (src/app.py lines
1188-1293): rate limit, body presence, validation, store availability, per-car
lock test-and-set, then the locked section, with the `finally:` release of the
lock (lines 1282-1285) applied to every exit of the locked section. -/
def create_booking (st : ServerState) (env : Env) : HttpResp × ServerState :=
  let rl := check_rate_limit st.rate_limit_storage env.client_ip env.now
  let st0 : ServerState := { st with rate_limit_storage := rl.2 }
  if !rl.1 then
    (HttpResp.tooMany "Rate limit exceeded. Maximum 3 bookings per hour per IP.", st0)
  else
    match env.jsonBody with
    | none => (HttpResp.badRequest "No data provided", st0)
    | some req =>
      match env.validationError with
      | some msg => (HttpResp.badRequest msg, st0)
      | none =>
        if !env.dbAvailable then (HttpResp.unavailable "Database not available", st0)
        else if st0.booking_locks.any (fun p => p.1 == req.car_id) then
          (HttpResp.conflict "Car is being booked by another user. Please try again.", st0)
        else
          let st1 := { st0 with booking_locks := (req.car_id, env.now) :: st0.booking_locks }
          let res := create_booking_locked st1 env req
          (res.1, { res.2 with
            booking_locks := res.2.booking_locks.filter (fun p => p.1 != req.car_id) })

/-- The price reported by `GET /cars/{id}/availability` (src/app.py lines
1136-1186): `none` when the car is missing/inactive or the dates are
unavailable, otherwise the `total_price` field of the JSON result (line 1176). -/
def get_car_availability_total_price (cars : List Car) (bookings : List Booking)
    (carId : String) (s e : Date) : Option Rat :=
  match fetch_active_car cars carId with
  | none => none
  | some car =>
    if (check_car_availability_atomic bookings false carId s e).1 then
      some (calculate_total_price car.price_per_day s e)
    else none

/-- `valid_statuses` of `admin_update_booking` (src/app.py line 911). -/
def valid_statuses : List String := ["pending", "confirmed", "cancelled", "completed"]

/-- `valid_deposit_statuses` of `admin_update_booking` (src/app.py line 917). -/
def valid_deposit_statuses : List String := ["pending", "paid", "refunded"]

/-- Lookup of a key in the request body's JSON dict. -/
def lookupField (data : List (String × String)) (key : String) : Option String :=
  (data.find? (fun p => p.1 == key)).map (fun p => p.2)

/-- A record-store `update(..).eq('id', booking_id)`: apply the patch to every
row whose id matches, leaving other rows untouched. -/
def update_where_id (bookings : List Booking) (booking_id : String)
    (g : Booking → Booking) : List Booking :=
  bookings.map (fun b => if b.id == booking_id then g b else b)

/-- The update applied to the matched row: the picked fields plus
`updated_at` (src/app.py line 922). -/
def apply_booking_update (b : Booking) (s d n : Option String) (nowIso : String) : Booking :=
  { b with
    status := s.getD b.status
    deposit_status := d.getD b.deposit_status
    notes := n.getD b.notes
    updated_at := nowIso }

/-- `admin_update_booking`, the `PUT /admin/bookings/{id}` handler (src/app.py
lines 873-984): id format check (`validUuid` embeds the `uuid.UUID` verdict),
existence check, body presence, restriction to `{status, deposit_status,
notes}`, enum validation of the picked values, then the store update
(`updateRaises` embeds a raised store exception, answered 500) and the re-fetch
of the updated row. -/
def admin_update_booking (bookings : List Booking) (validUuid : Bool) (booking_id : String)
    (data : List (String × String)) (updateRaises : Bool) (nowIso : String) :
    HttpResp × List Booking :=
  if !validUuid then (HttpResp.badRequest "Invalid booking ID format", bookings)
  else
    match bookings.find? (fun b => b.id == booking_id) with
    | none => (HttpResp.notFound "Booking not found", bookings)
    | some _ =>
      if data.isEmpty then (HttpResp.badRequest "No data provided", bookings)
      else
        let updStatus := lookupField data "status"
        let updDeposit := lookupField data "deposit_status"
        let updNotes := lookupField data "notes"
        if updStatus.isNone && updDeposit.isNone && updNotes.isNone then
          (HttpResp.badRequest "No valid fields to update", bookings)
        else if (match updStatus with
                 | some s => !(valid_statuses.contains s)
                 | none => false) then
          (HttpResp.badRequest "Invalid status", bookings)
        else if (match updDeposit with
                 | some s => !(valid_deposit_statuses.contains s)
                 | none => false) then
          (HttpResp.badRequest "Invalid deposit_status", bookings)
        else if updateRaises then (HttpResp.serverError "Update failed", bookings)
        else
          let updated := update_where_id bookings booking_id
            (fun b => apply_booking_update b updStatus updDeposit updNotes nowIso)
          match updated.find? (fun b => b.id == booking_id) with
          | some row => (HttpResp.ok200 row, updated)
          | none => (HttpResp.serverError "Failed to update booking", updated)

/-- `DatabaseService.soft_delete_booking` (src/database.py lines 195-210): set
`status := 'deleted'` and `updated_at` on the row with the given id; raise
(embedded as a 500-class response) when the update matches no row. -/
def DatabaseService.soft_delete_booking (bookings : List Booking) (booking_id : String)
    (nowIso : String) : HttpResp × List Booking :=
  let updated := update_where_id bookings booking_id
    (fun b => { b with status := "deleted", updated_at := nowIso })
  match updated.find? (fun b => b.id == booking_id) with
  | some row => (HttpResp.ok200 row, updated)
  | none => (HttpResp.serverError "Failed to delete booking", bookings)

/-- Modelled from the spec: the Admin `PATCH /bookings/{id}` route handler is
not among the provided source files (only its database layer
`DatabaseService.soft_delete_booking` is). Per the spec it "requires
`{"status":"deleted"}`" in the body and answers "400 if already deleted",
delegating the store mutation to the soft-delete of src/database.py. -/
def admin_patch_delete_booking (bookings : List Booking) (booking_id : String)
    (bodyStatus : Option String) (nowIso : String) : HttpResp × List Booking :=
  if bodyStatus != some "deleted" then
    (HttpResp.badRequest "Request body must set status to deleted", bookings)
  else
    match bookings.find? (fun b => b.id == booking_id) with
    | none => (HttpResp.notFound "Booking not found", bookings)
    | some b =>
      if b.status == "deleted" then
        (HttpResp.badRequest "Booking already deleted", bookings)
      else DatabaseService.soft_delete_booking bookings booking_id nowIso

/-! ### Concrete sample data, used by witnesses and counterexamples -/

/-- The scenario car of the spec: price 50.00/day, deposit 500, active. -/
def car1 : Car :=
  { id := "car-1", price_per_day := 50, deposit_amount := 500, is_active := true }

/-- A confirmed booking of `car-1` over `[2024-06-10, 2024-06-12)`. -/
def booking1 : Booking :=
  { id := "bk-1", car_id := "car-1", start_date := ⟨2024, 6, 10⟩, end_date := ⟨2024, 6, 12⟩
    client_last_name := "Ivanov", client_first_name := "Ivan"
    client_email := "ivan@example.com", client_phone := "0888123456"
    total_price := 100, status := "confirmed", payment_method := "cash"
    deposit_amount := 500, deposit_status := "pending", ip_address := "9.9.9.9"
    notes := "", created_at := "2024-05-01T00:00:00", updated_at := "" }

/-- A soft-deleted booking of `car-1` over `[2024-07-01, 2024-07-05)`. -/
def bookingDel : Booking :=
  { booking1 with id := "bk-del", start_date := ⟨2024, 7, 1⟩, end_date := ⟨2024, 7, 5⟩
                  status := "deleted" }

/-- A request for `car-1` over `[2024-07-01, 2024-07-05)`. -/
def req1 : BookingRequest :=
  { car_id := "car-1", start_date := ⟨2024, 7, 1⟩, end_date := ⟨2024, 7, 5⟩
    client_last_name := "Ivanov", client_first_name := "Ivan"
    client_email := "Ivan@Example.com", client_phone := "0888123456"
    payment_method := none, notes := none }

/-- A fault-free environment carrying `req1`. -/
def env1 : Env :=
  { now := 1000, nowIso := "2024-06-20T12:00:00", client_ip := "1.2.3.4"
    jsonBody := some req1, validationError := none, dbAvailable := true
    carFetchRaises := false, availQueryRaises := false, insertRaises := false
    insertReturnsNoData := false, emailRaises := false, newBookingId := "bk-new" }

/-- Server state holding `car1` and `booking1`, no locks, empty rate table. -/
def state1 : ServerState :=
  { rate_limit_storage := [], booking_locks := [], cars := [car1], bookings := [booking1] }

/-! ### Helper lemmas -/

/-- A `try/except` whose handler falls through to the same continuation:
both arms of the email `match` coincide. -/
theorem except_arms_const {α β : Type} (e : Except String α) (x : β) :
    (match e with | Except.ok _ => x | Except.error _ => x) = x := by
  cases e <;> rfl

/-- After `storage[ip] = b`, looking `ip` up yields `b`. -/
theorem lookupBucket_setBucket (storage : List (String × RateBucket)) (ip : String)
    (b : RateBucket) : lookupBucket (setBucket storage ip b) ip = some b := by
  induction storage with
  | nil => simp [setBucket, lookupBucket]
  | cons hd tl ih =>
      by_cases h : hd.1 == ip
      · simp [setBucket, lookupBucket, h]
      · obtain ⟨k, v⟩ := hd
        simp only at h
        simp only [setBucket, h, if_false, Bool.false_eq_true]
        simpa [lookupBucket, List.find?, h] using ih

/-- Two successive dict assignments to the same key collapse to the second. -/
theorem setBucket_setBucket (storage : List (String × RateBucket)) (ip : String)
    (b b' : RateBucket) : setBucket (setBucket storage ip b) ip b' = setBucket storage ip b' := by
  induction storage with
  | nil => simp [setBucket]
  | cons hd tl ih =>
      obtain ⟨k, v⟩ := hd
      by_cases h : k == ip
      · simp [setBucket, h]
      · simp [setBucket, h, ih]

/-- A list every element of which fails the key test is unchanged by the
lock-release filter. -/
theorem filter_release_of_not_locked (locks : List (String × Int)) (carId : String)
    (h : locks.any (fun p => p.1 == carId) = false) :
    locks.filter (fun p => p.1 != carId) = locks := by
  rw [List.filter_eq_self]
  intro p hp
  have := List.any_eq_false.mp h p hp
  simpa [bne] using this

/-- The inner `try:` never touches the lock table. -/
theorem create_booking_locked_locks (st : ServerState) (env : Env) (req : BookingRequest) :
    (create_booking_locked st env req).2.booking_locks = st.booking_locks := by
  unfold create_booking_locked
  split
  · rfl
  · split
    · rfl
    · dsimp only
      split
      · rfl
      · split
        · rfl
        · split
          · rfl
          · split <;> rfl

/-- The inner `try:` either leaves the bookings table alone or appends exactly
the one row built from the fetched car. -/
theorem create_booking_locked_bookings_cases (st : ServerState) (env : Env)
    (req : BookingRequest) :
    (create_booking_locked st env req).2.bookings = st.bookings ∨
    ∃ car, fetch_active_car st.cars req.car_id = some car ∧
      (create_booking_locked st env req).2.bookings =
        st.bookings ++ [new_booking_row env req car] := by
  unfold create_booking_locked
  split
  · exact Or.inl rfl
  · split
    · exact Or.inl rfl
    · next car hcar =>
        dsimp only
        split
        · exact Or.inl rfl
        · split
          · exact Or.inl rfl
          · split
            · exact Or.inl rfl
            · split <;> exact Or.inr ⟨car, hcar, rfl⟩

/-! ### Claim C1: the availability overlap test -/

/-- Claim C1 counterexample: `booking1` (confirmed, `[2024-06-10, 2024-06-12)`)
starts exactly on the requested end `2024-06-10` of the range
`[2024-06-08, 2024-06-10)`. The spec's half-open test finds no overlap, yet the
code's query (`lte` on `start_date`) reports the car unavailable — so
back-to-back bookings are NOT allowed in this direction. -/
theorem overlap_boundary_counterexample :
    (check_car_availability_atomic [booking1] false "car-1" ⟨2024, 6, 8⟩ ⟨2024, 6, 10⟩).1
      = false ∧
    spec_half_open_available [booking1] "car-1" ⟨2024, 6, 8⟩ ⟨2024, 6, 10⟩ = true := by
  constructor <;> decide

/-- Claim C1 (amended): the availability check reports unavailable exactly when
some booking for the car with status in `{pending, confirmed}` satisfies
`existing.start <= requested.end AND existing.end > requested.start`; an
existing booking whose end equals the requested start does not overlap, but an
existing booking whose start equals the requested end DOES count as
overlapping, so back-to-back bookings are allowed only in that one direction. -/
theorem availability_overlap_characterization :
    (∀ (bookings : List Booking) (carId : String) (s e : Date),
        (check_car_availability_atomic bookings false carId s e).1 = false ↔
          ∃ b ∈ bookings, b.car_id = carId ∧
            (b.status = "confirmed" ∨ b.status = "pending") ∧
            civilToDays b.start_date ≤ civilToDays e ∧
            civilToDays s < civilToDays b.end_date) ∧
    (∀ (b : Booking) (carId : String) (s e : Date),
        civilToDays b.end_date = civilToDays s →
        (check_car_availability_atomic [b] false carId s e).1 = true) ∧
    (∀ (b : Booking) (carId : String) (s e : Date),
        b.car_id = carId → b.status = "confirmed" →
        civilToDays b.start_date = civilToDays e →
        civilToDays s < civilToDays b.end_date →
        (check_car_availability_atomic [b] false carId s e).1 = false) ∧
    (∀ (bookings : List Booking) (q : Bool) (carId : String) (s e : Date),
        DatabaseService.check_car_availability bookings q carId s e =
          check_car_availability_atomic bookings q carId s e) := by
  refine ⟨?_, ?_, ?_, fun _ _ _ _ _ => rfl⟩
  · intro bookings carId s e
    constructor
    · intro hfalse
      by_cases h : (bookings.filter (overlap_filter carId s e)).isEmpty
      · exfalso
        unfold check_car_availability_atomic at hfalse
        simp [h] at hfalse
      · obtain ⟨b, hb⟩ := List.exists_mem_of_ne_nil _ ((not_congr List.isEmpty_iff).mp h)
        have hmem := List.mem_filter.mp hb
        have hp := hmem.2
        simp only [overlap_filter, Bool.and_eq_true, beq_iff_eq, decide_eq_true_eq,
          Bool.or_eq_true] at hp
        exact ⟨b, hmem.1, hp.1.1.1, hp.1.1.2, hp.1.2, hp.2⟩
    · rintro ⟨b, hb, hcar, hstat, hle, hlt⟩
      have hbp : overlap_filter carId s e b = true := by
        simp only [overlap_filter, Bool.and_eq_true, beq_iff_eq, decide_eq_true_eq,
          Bool.or_eq_true]
        refine ⟨⟨⟨hcar, ?_⟩, hle⟩, hlt⟩
        rcases hstat with h1 | h1 <;> simp [h1]
      have hne : bookings.filter (overlap_filter carId s e) ≠ [] :=
        List.ne_nil_of_mem (List.mem_filter.mpr ⟨hb, hbp⟩)
      unfold check_car_availability_atomic
      simp [List.isEmpty_iff, hne]
  · intro b carId s e hend
    unfold check_car_availability_atomic
    simp [overlap_filter, hend]
  · intro b carId s e hcar hstat hstart hlt
    unfold check_car_availability_atomic
    simp [overlap_filter, hcar, hstat, hstart, hlt, List.filter, le_of_eq]

/-- Witness for the amended C1 theorem: instantiated at `booking1` and the
boundary range `[2024-06-08, 2024-06-10)`. -/
theorem availability_overlap_characterization_witness :
    (check_car_availability_atomic [booking1] false "car-1" ⟨2024, 6, 8⟩ ⟨2024, 6, 10⟩).1
      = false :=
  availability_overlap_characterization.2.2.1 booking1 "car-1" ⟨2024, 6, 8⟩ ⟨2024, 6, 10⟩
    (by decide) (by decide) (by decide) (by decide)

/-- The fault-free path of `create_booking`, fully evaluated: rate limit
admits, body present and valid, store reachable, lock free, car fetched,
dates available, insert succeeds. -/
theorem create_booking_success_eq (st : ServerState) (env : Env) (req : BookingRequest)
    (car : Car)
    (h1 : (check_rate_limit st.rate_limit_storage env.client_ip env.now).1 = true)
    (h2 : env.jsonBody = some req)
    (h3 : env.validationError = none)
    (h4 : env.dbAvailable = true)
    (h5 : st.booking_locks.any (fun p => p.1 == req.car_id) = false)
    (h6 : env.carFetchRaises = false)
    (h7 : fetch_active_car st.cars req.car_id = some car)
    (h8 : env.availQueryRaises = false)
    (h9 : (check_car_availability_atomic st.bookings false req.car_id req.start_date
            req.end_date).1 = true)
    (h10 : env.insertRaises = false)
    (h11 : env.insertReturnsNoData = false) :
    create_booking st env =
      (HttpResp.ok201 (new_booking_row env req car),
       { rate_limit_storage := (check_rate_limit st.rate_limit_storage env.client_ip env.now).2,
         booking_locks := st.booking_locks,
         cars := st.cars,
         bookings := st.bookings ++ [new_booking_row env req car] }) := by
  have hrel := filter_release_of_not_locked st.booking_locks req.car_id h5
  simp only [create_booking, create_booking_locked, h1, h2, h3, h4, h5, h6, h7, h8, h9, h10,
    h11, Bool.not_true, Bool.false_eq_true, if_false, Bool.not_false, if_true]
  cases hse : send_booking_emails env.emailRaises <;>
    simp [hse, hrel, List.filter_cons, Prod.ext_iff]

/-- The server state after the `check_rate_limit()` call: only the rate-limit
dict may have changed. -/
def after_rate_limit (st : ServerState) (env : Env) : ServerState :=
  { st with
    rate_limit_storage := (check_rate_limit st.rate_limit_storage env.client_ip env.now).2 }

/-- Rate-limit rejection short-circuits everything: 429, nothing else runs. -/
theorem create_booking_rate_limited_eq (st : ServerState) (env : Env)
    (h1 : (check_rate_limit st.rate_limit_storage env.client_ip env.now).1 = false) :
    create_booking st env =
      (HttpResp.tooMany "Rate limit exceeded. Maximum 3 bookings per hour per IP.",
       after_rate_limit st env) := by
  simp [create_booking, after_rate_limit, h1]

/-- A failed validation short-circuits with 400. -/
theorem create_booking_invalid_eq (st : ServerState) (env : Env) (req : BookingRequest)
    (msg : String)
    (h1 : (check_rate_limit st.rate_limit_storage env.client_ip env.now).1 = true)
    (h2 : env.jsonBody = some req)
    (h3 : env.validationError = some msg) :
    create_booking st env = (HttpResp.badRequest msg, after_rate_limit st env) := by
  simp [create_booking, after_rate_limit, h1, h2, h3]

/-- A held per-car lock short-circuits with 409, touching nothing. -/
theorem create_booking_lock_held_eq (st : ServerState) (env : Env) (req : BookingRequest)
    (h1 : (check_rate_limit st.rate_limit_storage env.client_ip env.now).1 = true)
    (h2 : env.jsonBody = some req)
    (h3 : env.validationError = none)
    (h4 : env.dbAvailable = true)
    (h5 : st.booking_locks.any (fun p => p.1 == req.car_id) = true) :
    create_booking st env =
      (HttpResp.conflict "Car is being booked by another user. Please try again.",
       after_rate_limit st env) := by
  simp [create_booking, after_rate_limit, h1, h2, h3, h4, h5]

/-- A raised exception in the car fetch propagates to the outer handler: 500,
lock released, nothing inserted. -/
theorem create_booking_car_fetch_error_eq (st : ServerState) (env : Env) (req : BookingRequest)
    (h1 : (check_rate_limit st.rate_limit_storage env.client_ip env.now).1 = true)
    (h2 : env.jsonBody = some req)
    (h3 : env.validationError = none)
    (h4 : env.dbAvailable = true)
    (h5 : st.booking_locks.any (fun p => p.1 == req.car_id) = false)
    (h6 : env.carFetchRaises = true) :
    create_booking st env =
      (HttpResp.serverError "Failed to create booking", after_rate_limit st env) := by
  have hrel := filter_release_of_not_locked st.booking_locks req.car_id h5
  simp [create_booking, create_booking_locked, after_rate_limit, h1, h2, h3, h4, h5, h6,
    hrel, List.filter_cons]

/-- A missing or inactive car answers 404, lock released, nothing inserted. -/
theorem create_booking_car_not_found_eq (st : ServerState) (env : Env) (req : BookingRequest)
    (h1 : (check_rate_limit st.rate_limit_storage env.client_ip env.now).1 = true)
    (h2 : env.jsonBody = some req)
    (h3 : env.validationError = none)
    (h4 : env.dbAvailable = true)
    (h5 : st.booking_locks.any (fun p => p.1 == req.car_id) = false)
    (h6 : env.carFetchRaises = false)
    (h7 : fetch_active_car st.cars req.car_id = none) :
    create_booking st env =
      (HttpResp.notFound "Car not found", after_rate_limit st env) := by
  have hrel := filter_release_of_not_locked st.booking_locks req.car_id h5
  simp [create_booking, create_booking_locked, after_rate_limit, h1, h2, h3, h4, h5, h6, h7,
    hrel, List.filter_cons]

/-- An availability check reporting unavailable (for whatever reason string)
answers 409 with that reason, lock released, nothing inserted. -/
theorem create_booking_unavailable_eq (st : ServerState) (env : Env) (req : BookingRequest)
    (car : Car) (m : String)
    (h1 : (check_rate_limit st.rate_limit_storage env.client_ip env.now).1 = true)
    (h2 : env.jsonBody = some req)
    (h3 : env.validationError = none)
    (h4 : env.dbAvailable = true)
    (h5 : st.booking_locks.any (fun p => p.1 == req.car_id) = false)
    (h6 : env.carFetchRaises = false)
    (h7 : fetch_active_car st.cars req.car_id = some car)
    (h8 : check_car_availability_atomic st.bookings env.availQueryRaises req.car_id
            req.start_date req.end_date = (false, some m)) :
    create_booking st env = (HttpResp.conflict m, after_rate_limit st env) := by
  have hrel := filter_release_of_not_locked st.booking_locks req.car_id h5
  simp [create_booking, create_booking_locked, after_rate_limit, h1, h2, h3, h4, h5, h6, h7,
    h8, hrel, List.filter_cons]

/-- A raised exception in the booking insert propagates to the outer handler:
500, lock released, nothing inserted. -/
theorem create_booking_insert_error_eq (st : ServerState) (env : Env) (req : BookingRequest)
    (car : Car)
    (h1 : (check_rate_limit st.rate_limit_storage env.client_ip env.now).1 = true)
    (h2 : env.jsonBody = some req)
    (h3 : env.validationError = none)
    (h4 : env.dbAvailable = true)
    (h5 : st.booking_locks.any (fun p => p.1 == req.car_id) = false)
    (h6 : env.carFetchRaises = false)
    (h7 : fetch_active_car st.cars req.car_id = some car)
    (h8 : env.availQueryRaises = false)
    (h9 : (check_car_availability_atomic st.bookings false req.car_id req.start_date
            req.end_date).1 = true)
    (h10 : env.insertRaises = true ∨ (env.insertRaises = false ∧
            env.insertReturnsNoData = true)) :
    create_booking st env =
      (HttpResp.serverError "Failed to create booking", after_rate_limit st env) := by
  have hrel := filter_release_of_not_locked st.booking_locks req.car_id h5
  rcases h10 with h10 | ⟨h10, h11⟩
  · simp [create_booking, create_booking_locked, after_rate_limit, h1, h2, h3, h4, h5, h6,
      h7, h8, h9, h10, hrel, List.filter_cons]
  · simp [create_booking, create_booking_locked, after_rate_limit, h1, h2, h3, h4, h5, h6,
      h7, h8, h9, h10, h11, hrel, List.filter_cons]

/-- Every call leaves the bookings table unchanged or appends exactly one row,
built by `new_booking_row` from the fetched car. -/
theorem create_booking_cases (st : ServerState) (env : Env) :
    (create_booking st env).2.bookings = st.bookings ∨
    ∃ req car, env.jsonBody = some req ∧ fetch_active_car st.cars req.car_id = some car ∧
      (create_booking st env).2.bookings = st.bookings ++ [new_booking_row env req car] := by
  unfold create_booking
  dsimp only
  split
  · exact Or.inl rfl
  · split
    · exact Or.inl rfl
    · next req hreq =>
        split
        · exact Or.inl rfl
        · split
          · exact Or.inl rfl
          · split
            · exact Or.inl rfl
            · rcases create_booking_locked_bookings_cases
                ⟨(check_rate_limit st.rate_limit_storage env.client_ip env.now).2,
                 (req.car_id, env.now) :: st.booking_locks, st.cars, st.bookings⟩ env req
                with h | ⟨car, hcar, h⟩
              · exact Or.inl h
              · exact Or.inr ⟨req, car, hreq, hcar, h⟩

/-! ### Claim C4: the lock is released on every exit path -/

/-- Claim C4: every `create_booking` call leaves the lock table exactly as it
found it — the acquired lock is released by the `finally:` on success,
business-rule rejection (404, 409) and any raised store exception alike, and a
call that never acquired the lock (early failure or lock contention) does not
touch it; no car is ever left locked by a finished request. -/
theorem booking_lock_always_released :
    ∀ (st : ServerState) (env : Env),
      (create_booking st env).2.booking_locks = st.booking_locks := by
  intro st env
  unfold create_booking
  dsimp only
  split
  · rfl
  · split
    · rfl
    · next req _ =>
        split
        · rfl
        · split
          · rfl
          · split
            · rfl
            · next hlock =>
                have h5 : st.booking_locks.any (fun p => p.1 == req.car_id) = false := by
                  cases h : st.booking_locks.any (fun p => p.1 == req.car_id)
                  · rfl
                  · exact absurd h hlock
                have hrel := filter_release_of_not_locked st.booking_locks req.car_id h5
                rw [create_booking_locked_locks]
                simp [hrel]

/-! ### Claim C2: the create-booking pipeline -/

/-- Claim C2: `create_booking` performs rate-limit admission, input validation,
per-car lock acquisition, car re-fetch (404 when missing/inactive), in-lock
availability check (409 when unavailable), price computation and a single
insert, in that order; a failing step short-circuits all later steps and leaves
the bookings table unchanged; the inserted row carries status "pending",
deposit_status "pending" and the computed total price; each call appends
exactly one row (success) or none (any failure). -/
theorem create_booking_step_contract :
    (∀ (st : ServerState) (env : Env),
      (check_rate_limit st.rate_limit_storage env.client_ip env.now).1 = false →
      create_booking st env =
        (HttpResp.tooMany "Rate limit exceeded. Maximum 3 bookings per hour per IP.",
         after_rate_limit st env)) ∧
    (∀ (st : ServerState) (env : Env) (req : BookingRequest) (msg : String),
      (check_rate_limit st.rate_limit_storage env.client_ip env.now).1 = true →
      env.jsonBody = some req → env.validationError = some msg →
      create_booking st env = (HttpResp.badRequest msg, after_rate_limit st env)) ∧
    (∀ (st : ServerState) (env : Env) (req : BookingRequest),
      (check_rate_limit st.rate_limit_storage env.client_ip env.now).1 = true →
      env.jsonBody = some req → env.validationError = none → env.dbAvailable = true →
      st.booking_locks.any (fun p => p.1 == req.car_id) = true →
      create_booking st env =
        (HttpResp.conflict "Car is being booked by another user. Please try again.",
         after_rate_limit st env)) ∧
    (∀ (st : ServerState) (env : Env) (req : BookingRequest),
      (check_rate_limit st.rate_limit_storage env.client_ip env.now).1 = true →
      env.jsonBody = some req → env.validationError = none → env.dbAvailable = true →
      st.booking_locks.any (fun p => p.1 == req.car_id) = false →
      env.carFetchRaises = false → fetch_active_car st.cars req.car_id = none →
      create_booking st env = (HttpResp.notFound "Car not found", after_rate_limit st env)) ∧
    (∀ (st : ServerState) (env : Env) (req : BookingRequest) (car : Car) (m : String),
      (check_rate_limit st.rate_limit_storage env.client_ip env.now).1 = true →
      env.jsonBody = some req → env.validationError = none → env.dbAvailable = true →
      st.booking_locks.any (fun p => p.1 == req.car_id) = false →
      env.carFetchRaises = false → fetch_active_car st.cars req.car_id = some car →
      check_car_availability_atomic st.bookings env.availQueryRaises req.car_id
        req.start_date req.end_date = (false, some m) →
      create_booking st env = (HttpResp.conflict m, after_rate_limit st env)) ∧
    (∀ (st : ServerState) (env : Env) (req : BookingRequest) (car : Car),
      (check_rate_limit st.rate_limit_storage env.client_ip env.now).1 = true →
      env.jsonBody = some req → env.validationError = none → env.dbAvailable = true →
      st.booking_locks.any (fun p => p.1 == req.car_id) = false →
      env.carFetchRaises = false → fetch_active_car st.cars req.car_id = some car →
      env.availQueryRaises = false →
      (check_car_availability_atomic st.bookings false req.car_id req.start_date
        req.end_date).1 = true →
      env.insertRaises = false → env.insertReturnsNoData = false →
      create_booking st env =
        (HttpResp.ok201 (new_booking_row env req car),
         { rate_limit_storage :=
             (check_rate_limit st.rate_limit_storage env.client_ip env.now).2,
           booking_locks := st.booking_locks, cars := st.cars,
           bookings := st.bookings ++ [new_booking_row env req car] }) ∧
      (new_booking_row env req car).status = "pending" ∧
      (new_booking_row env req car).deposit_status = "pending" ∧
      (new_booking_row env req car).total_price =
        calculate_total_price car.price_per_day req.start_date req.end_date) ∧
    (∀ (st : ServerState) (env : Env),
      (create_booking st env).2.bookings = st.bookings ∨
      ∃ row, (create_booking st env).2.bookings = st.bookings ++ [row]) := by
  refine ⟨?_, ?_, ?_, ?_, ?_, ?_, ?_⟩
  · exact create_booking_rate_limited_eq
  · exact create_booking_invalid_eq
  · exact create_booking_lock_held_eq
  · exact create_booking_car_not_found_eq
  · exact create_booking_unavailable_eq
  · intro st env req car h1 h2 h3 h4 h5 h6 h7 h8 h9 h10 h11
    exact ⟨create_booking_success_eq st env req car h1 h2 h3 h4 h5 h6 h7 h8 h9 h10 h11,
      rfl, rfl, rfl⟩
  · intro st env
    rcases create_booking_cases st env with h | ⟨req, car, _, _, h⟩
    · exact Or.inl h
    · exact Or.inr ⟨new_booking_row env req car, h⟩

/-- Witness for C2: the fault-free concrete environment creates exactly the
expected pending row. -/
theorem create_booking_step_contract_witness :
    create_booking state1 env1 =
      (HttpResp.ok201 (new_booking_row env1 req1 car1),
       { rate_limit_storage :=
           (check_rate_limit state1.rate_limit_storage env1.client_ip env1.now).2,
         booking_locks := state1.booking_locks, cars := state1.cars,
         bookings := state1.bookings ++ [new_booking_row env1 req1 car1] }) ∧
    (new_booking_row env1 req1 car1).status = "pending" ∧
    (new_booking_row env1 req1 car1).deposit_status = "pending" ∧
    (new_booking_row env1 req1 car1).total_price =
      calculate_total_price car1.price_per_day req1.start_date req1.end_date :=
  create_booking_step_contract.2.2.2.2.2.1 state1 env1 req1 car1
    (by decide) rfl rfl rfl (by decide) rfl rfl rfl (by decide) rfl rfl

/-! ### Claim C3: fail-fast lock contention, per-car granularity -/

/-- Claim C3: a create-booking request that finds the lock table already
holding an entry for the requested car returns 409 immediately — the response
is computed directly from the lock test, with no insert and with the other
request's lock entry left in place (`after_rate_limit` keeps `booking_locks`
and `bookings` untouched) — while locks held on other cars leave the request
entirely unaffected (it still succeeds under the success conditions). -/
theorem lock_contention_fails_fast :
    (∀ (st : ServerState) (env : Env) (req : BookingRequest) (t : Int),
      (check_rate_limit st.rate_limit_storage env.client_ip env.now).1 = true →
      env.jsonBody = some req → env.validationError = none → env.dbAvailable = true →
      (req.car_id, t) ∈ st.booking_locks →
      create_booking st env =
        (HttpResp.conflict "Car is being booked by another user. Please try again.",
         after_rate_limit st env) ∧
      (after_rate_limit st env).booking_locks = st.booking_locks ∧
      (after_rate_limit st env).bookings = st.bookings) ∧
    (∀ (st : ServerState) (env : Env) (req : BookingRequest) (car : Car),
      (check_rate_limit st.rate_limit_storage env.client_ip env.now).1 = true →
      env.jsonBody = some req → env.validationError = none → env.dbAvailable = true →
      (∀ p ∈ st.booking_locks, p.1 ≠ req.car_id) →
      env.carFetchRaises = false → fetch_active_car st.cars req.car_id = some car →
      env.availQueryRaises = false →
      (check_car_availability_atomic st.bookings false req.car_id req.start_date
        req.end_date).1 = true →
      env.insertRaises = false → env.insertReturnsNoData = false →
      (create_booking st env).1 = HttpResp.ok201 (new_booking_row env req car)) := by
  constructor
  · intro st env req t h1 h2 h3 h4 hmem
    have h5 : st.booking_locks.any (fun p => p.1 == req.car_id) = true :=
      List.any_eq_true.mpr ⟨(req.car_id, t), hmem, by simp⟩
    exact ⟨create_booking_lock_held_eq st env req h1 h2 h3 h4 h5, rfl, rfl⟩
  · intro st env req car h1 h2 h3 h4 hother h6 h7 h8 h9 h10 h11
    have h5 : st.booking_locks.any (fun p => p.1 == req.car_id) = false :=
      List.any_eq_false.mpr (fun p hp => by simpa using hother p hp)
    rw [create_booking_success_eq st env req car h1 h2 h3 h4 h5 h6 h7 h8 h9 h10 h11]

/-- A copy of `state1` whose lock table already holds an entry for `car-1`. -/
def state1locked : ServerState := { state1 with booking_locks := [("car-1", 500)] }

/-- Witness for C3: with `car-1` locked, the concrete request is answered 409
and the lock entry survives. -/
theorem lock_contention_fails_fast_witness :
    create_booking state1locked env1 =
      (HttpResp.conflict "Car is being booked by another user. Please try again.",
       after_rate_limit state1locked env1) ∧
    (after_rate_limit state1locked env1).booking_locks = state1locked.booking_locks ∧
    (after_rate_limit state1locked env1).bookings = state1locked.bookings :=
  lock_contention_fails_fast.1 state1locked env1 req1 500
    (by decide) rfl rfl rfl (by decide)

/-! ### Claim C7: notification failures are absorbed -/

/-- The inserted row does not depend on the email fault flag. -/
theorem new_booking_row_email_invariant (env : Env) (req : BookingRequest) (car : Car)
    (b : Bool) :
    new_booking_row { env with emailRaises := b } req car = new_booking_row env req car := rfl

/-- `create_booking` does not read the email fault flag anywhere except the
caught `try/except` around the two sends, whose handler continues identically. -/
theorem create_booking_email_invariant (st : ServerState) (env : Env) (b : Bool) :
    create_booking st { env with emailRaises := b } = create_booking st env := by
  unfold create_booking create_booking_locked
  cases hb : send_booking_emails b <;> cases he : send_booking_emails env.emailRaises <;>
    simp [hb, he, new_booking_row_email_invariant]

/-- Claim C7: once the insert has succeeded, `create_booking` answers 201 with
the persisted row whether or not the confirmation/notification emails raise;
indeed, the email fault flag has no effect whatsoever on the response or on any
stored state. -/
theorem notification_failure_never_surfaces :
    (∀ (st : ServerState) (env : Env) (b : Bool),
      create_booking st { env with emailRaises := b } = create_booking st env) ∧
    (∀ (st : ServerState) (env : Env) (req : BookingRequest) (car : Car),
      (check_rate_limit st.rate_limit_storage env.client_ip env.now).1 = true →
      env.jsonBody = some req → env.validationError = none → env.dbAvailable = true →
      st.booking_locks.any (fun p => p.1 == req.car_id) = false →
      env.carFetchRaises = false → fetch_active_car st.cars req.car_id = some car →
      env.availQueryRaises = false →
      (check_car_availability_atomic st.bookings false req.car_id req.start_date
        req.end_date).1 = true →
      env.insertRaises = false → env.insertReturnsNoData = false →
      (create_booking st env).1 = HttpResp.ok201 (new_booking_row env req car) ∧
      (create_booking st env).2.bookings = st.bookings ++ [new_booking_row env req car]) := by
  constructor
  · exact create_booking_email_invariant
  · intro st env req car h1 h2 h3 h4 h5 h6 h7 h8 h9 h10 h11
    rw [create_booking_success_eq st env req car h1 h2 h3 h4 h5 h6 h7 h8 h9 h10 h11]
    exact ⟨rfl, rfl⟩

/-- The concrete environment with failing email dispatch. -/
def env1mail : Env := { env1 with emailRaises := true }

/-- Witness for C7: with the emails raising, the concrete booking is still
created and answered 201. -/
theorem notification_failure_never_surfaces_witness :
    (create_booking state1 env1mail).1 = HttpResp.ok201 (new_booking_row env1mail req1 car1) ∧
    (create_booking state1 env1mail).2.bookings =
      state1.bookings ++ [new_booking_row env1mail req1 car1] :=
  notification_failure_never_surfaces.2 state1 env1mail req1 car1
    (by decide) rfl rfl rfl (by decide) rfl rfl rfl (by decide) rfl rfl

/-! ### Claim C8: mapping of record-store errors -/

/-- The concrete environment whose only fault is a raised exception in the
availability query. -/
def env1availerr : Env := { env1 with availQueryRaises := true }

/-- Claim C8 counterexample: when the availability query itself raises (its
only fault — car fetch and insert are sound), `create_booking` answers
409 Conflict "Error checking availability", not a 5xx persistence failure. -/
theorem availability_error_conflict_counterexample :
    env1availerr.availQueryRaises = true ∧
    env1availerr.carFetchRaises = false ∧
    env1availerr.insertRaises = false ∧
    env1availerr.insertReturnsNoData = false ∧
    (create_booking state1 env1availerr).1 = HttpResp.conflict "Error checking availability" :=
  ⟨rfl, rfl, rfl, rfl, by decide⟩

/-- Claim C8 (amended): a record-store error in the car fetch or in the
booking insert surfaces as the generic 500 "Failed to create booking", a kind
distinct from Conflict, NotFound and RateLimitExceeded; but a record-store
error in the availability query is caught inside the checker and reported as
409 Conflict "Error checking availability". -/
theorem persistence_error_mapping :
    (∀ (st : ServerState) (env : Env) (req : BookingRequest),
      (check_rate_limit st.rate_limit_storage env.client_ip env.now).1 = true →
      env.jsonBody = some req → env.validationError = none → env.dbAvailable = true →
      st.booking_locks.any (fun p => p.1 == req.car_id) = false →
      env.carFetchRaises = true →
      create_booking st env =
        (HttpResp.serverError "Failed to create booking", after_rate_limit st env)) ∧
    (∀ (st : ServerState) (env : Env) (req : BookingRequest) (car : Car),
      (check_rate_limit st.rate_limit_storage env.client_ip env.now).1 = true →
      env.jsonBody = some req → env.validationError = none → env.dbAvailable = true →
      st.booking_locks.any (fun p => p.1 == req.car_id) = false →
      env.carFetchRaises = false → fetch_active_car st.cars req.car_id = some car →
      env.availQueryRaises = false →
      (check_car_availability_atomic st.bookings false req.car_id req.start_date
        req.end_date).1 = true →
      (env.insertRaises = true ∨ (env.insertRaises = false ∧
        env.insertReturnsNoData = true)) →
      create_booking st env =
        (HttpResp.serverError "Failed to create booking", after_rate_limit st env)) ∧
    (∀ (st : ServerState) (env : Env) (req : BookingRequest) (car : Car),
      (check_rate_limit st.rate_limit_storage env.client_ip env.now).1 = true →
      env.jsonBody = some req → env.validationError = none → env.dbAvailable = true →
      st.booking_locks.any (fun p => p.1 == req.car_id) = false →
      env.carFetchRaises = false → fetch_active_car st.cars req.car_id = some car →
      env.availQueryRaises = true →
      create_booking st env =
        (HttpResp.conflict "Error checking availability", after_rate_limit st env)) ∧
    (∀ (m1 m2 : String),
      HttpResp.serverError m1 ≠ HttpResp.conflict m2 ∧
      HttpResp.serverError m1 ≠ HttpResp.notFound m2 ∧
      HttpResp.serverError m1 ≠ HttpResp.tooMany m2) := by
  refine ⟨create_booking_car_fetch_error_eq, create_booking_insert_error_eq, ?_, ?_⟩
  · intro st env req car h1 h2 h3 h4 h5 h6 h7 h8
    refine create_booking_unavailable_eq st env req car "Error checking availability"
      h1 h2 h3 h4 h5 h6 h7 ?_
    rw [h8]
    rfl
  · intro m1 m2
    refine ⟨?_, ?_, ?_⟩ <;> intro h <;> cases h

/-- Witness for the amended C8 theorem: the availability-query fault at the
concrete input is answered 409 "Error checking availability". -/
theorem persistence_error_mapping_witness :
    create_booking state1 env1availerr =
      (HttpResp.conflict "Error checking availability", after_rate_limit state1 env1availerr) :=
  persistence_error_mapping.2.2.1 state1 env1availerr req1 car1
    (by decide) rfl rfl rfl (by decide) rfl rfl rfl

/-! ### Claim C5: the rate limiter -/

/-- A request finding an unexpired bucket at the maximum is rejected and the
stored state is unchanged. -/
theorem check_rate_limit_reject_eq (storage : List (String × RateBucket)) (ip : String)
    (now : Int) (b : RateBucket)
    (h : lookupBucket storage ip = some b)
    (h2 : ¬ now > b.reset_time)
    (h3 : rate_limit_max_requests ≤ b.count) :
    check_rate_limit storage ip now = (false, storage) := by
  simp [check_rate_limit, h, h2, h3]

/-- A request finding an unexpired bucket below the maximum is admitted and
increments the count, keeping the window end. -/
theorem check_rate_limit_admit_eq (storage : List (String × RateBucket)) (ip : String)
    (now : Int) (b : RateBucket)
    (h : lookupBucket storage ip = some b)
    (h2 : ¬ now > b.reset_time)
    (h3 : b.count < rate_limit_max_requests) :
    check_rate_limit storage ip now =
      (true, setBucket storage ip ⟨b.count + 1, b.reset_time⟩) := by
  simp [check_rate_limit, h, h2, Nat.not_le.mpr h3]

/-- A first request from an origin creates the bucket, starts the window and is
itself counted: the stored count becomes 1. -/
theorem check_rate_limit_fresh_eq (storage : List (String × RateBucket)) (ip : String)
    (now : Int)
    (h : lookupBucket storage ip = none) :
    check_rate_limit storage ip now =
      (true, setBucket storage ip ⟨1, now + rate_limit_window⟩) := by
  have hw : ¬ now > now + rate_limit_window := by simp [rate_limit_window]
  simp [check_rate_limit, h, lookupBucket_setBucket, hw, setBucket_setBucket,
    rate_limit_max_requests]

/-- A request arriving after the window end resets the count to zero and starts
a new window before being counted itself: the stored count becomes 1. -/
theorem check_rate_limit_reset_eq (storage : List (String × RateBucket)) (ip : String)
    (now : Int) (b : RateBucket)
    (h : lookupBucket storage ip = some b)
    (h2 : now > b.reset_time) :
    check_rate_limit storage ip now =
      (true, setBucket storage ip ⟨1, now + rate_limit_window⟩) := by
  have hw : ¬ now > now + rate_limit_window := by simp [rate_limit_window]
  simp [check_rate_limit, h, h2, lookupBucket_setBucket, hw, setBucket_setBucket,
    rate_limit_max_requests]

/-- Counting admitted calls against a single-bucket store: with all times
inside the window, exactly `max - c` further requests are admitted. -/
theorem run_rate_limit_singleton (ip : String) (r : Int) :
    ∀ (ts : List Int) (c : Nat), (∀ t ∈ ts, t ≤ r) →
      run_rate_limit [(ip, ⟨c, r⟩)] ip ts = min ts.length (rate_limit_max_requests - c) := by
  intro ts
  induction ts with
  | nil => intro c _; simp [run_rate_limit]
  | cons t ts ih =>
      intro c h
      have ht : ¬ t > r := by
        have := h t (by simp)
        omega
      have hts : ∀ u ∈ ts, u ≤ r := fun u hu => h u (by simp [hu])
      have hlook : lookupBucket [(ip, ⟨c, r⟩)] ip = some ⟨c, r⟩ := by
        simp [lookupBucket]
      by_cases hc : rate_limit_max_requests ≤ c
      · rw [run_rate_limit, check_rate_limit_reject_eq _ _ _ _ hlook ht hc]
        simp only [if_false, Bool.false_eq_true]
        rw [ih c hts]
        have h0 : rate_limit_max_requests - c = 0 := Nat.sub_eq_zero_of_le hc
        simp [h0]
      · have hc' : c < rate_limit_max_requests := Nat.not_le.mp hc
        rw [run_rate_limit, check_rate_limit_admit_eq _ _ _ _ hlook ht hc']
        simp only [if_true]
        have hset : setBucket [(ip, ⟨c, r⟩)] ip ⟨c + 1, r⟩ = [(ip, ⟨c + 1, r⟩)] := by
          simp [setBucket]
        have hmc : rate_limit_max_requests - c = (rate_limit_max_requests - (c + 1)) + 1 := by
          omega
        rw [hset, ih (c + 1) hts, hmc]
        simp only [List.length_cons]
        rcases Nat.le_total ts.length (rate_limit_max_requests - (c + 1)) with hle | hle
        · rw [Nat.min_eq_left hle, Nat.min_eq_left (by omega)]
          omega
        · rw [Nat.min_eq_right hle, Nat.min_eq_right (by omega)]
          omega

/-- Claim C5: the deployed limiter allows 3 requests per origin per 1-hour
window; a request finding an unexpired bucket at the maximum is rejected with
the stored state unchanged; one below the maximum is admitted and counted; the
first request after the window end resets the count to zero and starts a new
window before being counted itself (stored count 1, fresh window end); and from
an empty store, a burst whose tail stays inside the first request's window gets
exactly `min(n, 3)` of its `n` requests admitted. -/
theorem rate_limiter_contract :
    rate_limit_max_requests = 3 ∧ rate_limit_window = 3600 ∧
    (∀ (storage : List (String × RateBucket)) (ip : String) (now : Int) (b : RateBucket),
      lookupBucket storage ip = some b → ¬ now > b.reset_time →
      rate_limit_max_requests ≤ b.count →
      check_rate_limit storage ip now = (false, storage)) ∧
    (∀ (storage : List (String × RateBucket)) (ip : String) (now : Int) (b : RateBucket),
      lookupBucket storage ip = some b → ¬ now > b.reset_time →
      b.count < rate_limit_max_requests →
      check_rate_limit storage ip now =
        (true, setBucket storage ip ⟨b.count + 1, b.reset_time⟩)) ∧
    (∀ (storage : List (String × RateBucket)) (ip : String) (now : Int),
      lookupBucket storage ip = none →
      check_rate_limit storage ip now =
        (true, setBucket storage ip ⟨1, now + rate_limit_window⟩)) ∧
    (∀ (storage : List (String × RateBucket)) (ip : String) (now : Int) (b : RateBucket),
      lookupBucket storage ip = some b → now > b.reset_time →
      check_rate_limit storage ip now =
        (true, setBucket storage ip ⟨1, now + rate_limit_window⟩)) ∧
    (∀ (ip : String) (t : Int) (ts : List Int),
      (∀ u ∈ ts, u ≤ t + rate_limit_window) →
      run_rate_limit [] ip (t :: ts) = min (ts.length + 1) rate_limit_max_requests) := by
  refine ⟨rfl, rfl, check_rate_limit_reject_eq, check_rate_limit_admit_eq,
    check_rate_limit_fresh_eq, check_rate_limit_reset_eq, ?_⟩
  intro ip t ts hts
  rw [run_rate_limit, check_rate_limit_fresh_eq [] ip t rfl]
  simp only [if_true]
  have hset : setBucket [] ip ⟨1, t + rate_limit_window⟩ = [(ip, ⟨1, t + rate_limit_window⟩)] :=
    rfl
  rw [hset, run_rate_limit_singleton ip (t + rate_limit_window) ts 1 hts]
  show 1 + min ts.length 2 = min (ts.length + 1) 3
  rcases Nat.le_total ts.length 2 with hle | hle
  · rw [Nat.min_eq_left hle, Nat.min_eq_left (by omega)]
    omega
  · rw [Nat.min_eq_right hle, Nat.min_eq_right (by omega)]

/-- Witness for C5: from an empty store, five in-window requests from one
origin get exactly three admissions. -/
theorem rate_limiter_contract_witness :
    run_rate_limit [] "1.2.3.4" (0 :: [10, 20, 30, 40]) =
      min ([10, 20, 30, 40].length + 1) rate_limit_max_requests :=
  rate_limiter_contract.2.2.2.2.2.2 "1.2.3.4" 0 [10, 20, 30, 40] (by decide)

/-! ### Claim C6: the pricing calculator -/

/-- Claim C6: the pricing calculator is pure calendar-date arithmetic — it
reads only the `.date()` projections, so any time-of-day components are
ignored; it returns `dailyRate * (end - start)` in whole days (end exclusive);
the availability endpoint computes its reported price and the created booking
row stores its price through this same function, so both agree; and the spec
scenario 3 days at 50.00/day prices at 150.00. -/
theorem pricing_calculator_contract :
    (∀ (rate : Rat) (d1 d2 : Date) (t1 t2 : Nat),
      priceFromDateTimes rate ⟨d1, t1⟩ ⟨d2, t2⟩ = calculate_total_price rate d1 d2) ∧
    (∀ (rate : Rat) (s e : Date),
      calculate_total_price rate s e = rate * ((rental_days s e : Int) : Rat)) ∧
    (∀ (s e : Date), civilToDays s < civilToDays e → 0 < rental_days s e) ∧
    (∀ (cars : List Car) (bookings : List Booking) (env : Env) (req : BookingRequest)
       (car : Car),
      fetch_active_car cars req.car_id = some car →
      (check_car_availability_atomic bookings false req.car_id req.start_date
        req.end_date).1 = true →
      get_car_availability_total_price cars bookings req.car_id req.start_date req.end_date =
        some ((new_booking_row env req car).total_price)) ∧
    (rental_days ⟨2024, 6, 5⟩ ⟨2024, 6, 8⟩ = 3 ∧
      calculate_total_price 50 ⟨2024, 6, 5⟩ ⟨2024, 6, 8⟩ = 150) := by
  refine ⟨fun _ _ _ _ _ => rfl, fun _ _ _ => rfl, ?_, ?_, ?_, ?_⟩
  · intro s e h
    simp only [rental_days]
    omega
  · intro cars bookings env req car h1 h2
    simp [get_car_availability_total_price, h1, h2, new_booking_row]
  · decide
  · have h3 : civilToDays ⟨2024, 6, 8⟩ - civilToDays ⟨2024, 6, 5⟩ = 3 := by decide
    show (50 : Rat) * ((civilToDays ⟨2024, 6, 8⟩ - civilToDays ⟨2024, 6, 5⟩ : Int) : Rat) = 150
    rw [h3]
    norm_num

/-- Witness for C6: at the concrete car, booking table and July request, the
availability endpoint reports exactly the price stored in the created row. -/
theorem pricing_calculator_contract_witness :
    get_car_availability_total_price [car1] [booking1] req1.car_id req1.start_date
      req1.end_date = some ((new_booking_row env1 req1 car1).total_price) :=
  pricing_calculator_contract.2.2.2.1 [car1] [booking1] env1 req1 car1 rfl (by decide)

/-! ### Claim C9: the admin booking-update endpoint -/

/-- `find?` over an id-preserving per-row update finds the updated first match. -/
theorem find_map_update (bid : String) (g : Booking → Booking)
    (hg : ∀ x, (g x).id = x.id) :
    ∀ (bookings : List Booking) (b : Booking),
      bookings.find? (fun x => x.id == bid) = some b →
      (update_where_id bookings bid g).find? (fun x => x.id == bid) = some (g b) := by
  intro bookings
  unfold update_where_id
  induction bookings with
  | nil => intro b h; simp at h
  | cons x xs ih =>
      intro b h
      rw [List.map_cons]
      by_cases hx : (x.id == bid) = true
      · simp only [List.find?, hx] at h
        injection h with h
        subst h
        rw [if_pos hx]
        simp only [List.find?, hg, hx]
      · have hx' : (x.id == bid) = false := by
          cases hb : (x.id == bid)
          · rfl
          · exact absurd hb hx
        simp only [List.find?, hx'] at h
        rw [if_neg hx]
        simp only [List.find?, hx']
        exact ih b h

/-- Appending an entry under an unrelated key changes no lookup of `key`. -/
theorem lookupField_append_of_ne (data : List (String × String)) (key k : String) (v : String)
    (hk : k ≠ key) : lookupField (data ++ [(k, v)]) key = lookupField data key := by
  induction data with
  | nil =>
      have hkk : (k == key) = false := by
        simp [hk]
      simp [lookupField, List.find?, hkk]
  | cons hd tl ih =>
      by_cases hhd : (hd.1 == key) = true
      · simp [lookupField, List.find?, hhd]
      · have hhd' : (hd.1 == key) = false := by
          cases hb : (hd.1 == key)
          · rfl
          · exact absurd hb hhd
        simp only [lookupField, List.cons_append, List.find?, hhd'] at ih ⊢
        exact ih

/-- The fault-free, valid path of `admin_update_booking`, fully evaluated. -/
theorem admin_update_booking_success_eq (bookings : List Booking) (bid : String)
    (data : List (String × String)) (nowIso : String) (b : Booking)
    (hfind : bookings.find? (fun x => x.id == bid) = some b)
    (hdata : data.isEmpty = false)
    (hfields : ((lookupField data "status").isNone &&
        (lookupField data "deposit_status").isNone &&
        (lookupField data "notes").isNone) = false)
    (hs : ∀ v, lookupField data "status" = some v → valid_statuses.contains v = true)
    (hd : ∀ v, lookupField data "deposit_status" = some v →
      valid_deposit_statuses.contains v = true) :
    admin_update_booking bookings true bid data false nowIso =
      (HttpResp.ok200 (apply_booking_update b (lookupField data "status")
          (lookupField data "deposit_status") (lookupField data "notes") nowIso),
       update_where_id bookings bid (fun x => apply_booking_update x
         (lookupField data "status") (lookupField data "deposit_status")
         (lookupField data "notes") nowIso)) := by
  have hmap := find_map_update bid
    (fun x => apply_booking_update x (lookupField data "status")
      (lookupField data "deposit_status") (lookupField data "notes") nowIso)
    (fun _ => rfl) bookings b hfind
  rcases hstat : lookupField data "status" with _ | v1 <;>
    rcases hdep : lookupField data "deposit_status" with _ | v2
  · rcases hnote : lookupField data "notes" with _ | v3
    · rw [hstat, hdep, hnote] at hfields
      simp at hfields
    · rw [hstat, hdep, hnote] at hmap
      simp [admin_update_booking, hfind, hdata, hmap, hstat, hdep, hnote]
  · have h2 : v2 ∈ valid_deposit_statuses := by simpa using hd v2 hdep
    rw [hstat, hdep] at hmap
    simp [admin_update_booking, hfind, hdata, hmap, hstat, hdep, h2]
  · have h1 : v1 ∈ valid_statuses := by simpa using hs v1 hstat
    rw [hstat, hdep] at hmap
    simp [admin_update_booking, hfind, hdata, hmap, hstat, hdep, h1]
  · have h1 : v1 ∈ valid_statuses := by simpa using hs v1 hstat
    have h2 : v2 ∈ valid_deposit_statuses := by simpa using hd v2 hdep
    rw [hstat, hdep] at hmap
    simp [admin_update_booking, hfind, hdata, hmap, hstat, hdep, h1, h2]

/-- Claim C9: the admin update path mutates at most status, deposit_status,
notes and updated_at — every other field of the target row and every other row
survive unchanged; keys outside the three editable fields are ignored; a status
or deposit_status outside the allowed enumeration answers 400 with the table
unchanged; a missing booking answers 404; success answers 200 with the updated
row. -/
theorem admin_update_contract :
    (∀ (bookings : List Booking) (bid : String) (data : List (String × String))
       (fault : Bool) (nowIso : String),
      bookings.find? (fun x => x.id == bid) = none →
      admin_update_booking bookings true bid data fault nowIso =
        (HttpResp.notFound "Booking not found", bookings)) ∧
    (∀ (bookings : List Booking) (bid : String) (data : List (String × String))
       (fault : Bool) (nowIso : String) (b : Booking) (v : String),
      bookings.find? (fun x => x.id == bid) = some b →
      data.isEmpty = false →
      lookupField data "status" = some v → valid_statuses.contains v = false →
      admin_update_booking bookings true bid data fault nowIso =
        (HttpResp.badRequest "Invalid status", bookings)) ∧
    (∀ (bookings : List Booking) (bid : String) (data : List (String × String))
       (fault : Bool) (nowIso : String) (b : Booking) (v : String),
      bookings.find? (fun x => x.id == bid) = some b →
      data.isEmpty = false →
      (∀ w, lookupField data "status" = some w → valid_statuses.contains w = true) →
      lookupField data "deposit_status" = some v →
      valid_deposit_statuses.contains v = false →
      admin_update_booking bookings true bid data fault nowIso =
        (HttpResp.badRequest "Invalid deposit_status", bookings)) ∧
    (∀ (bookings : List Booking) (bid : String) (data : List (String × String))
       (nowIso : String) (b : Booking),
      bookings.find? (fun x => x.id == bid) = some b →
      data.isEmpty = false →
      ((lookupField data "status").isNone && (lookupField data "deposit_status").isNone &&
        (lookupField data "notes").isNone) = false →
      (∀ w, lookupField data "status" = some w → valid_statuses.contains w = true) →
      (∀ w, lookupField data "deposit_status" = some w →
        valid_deposit_statuses.contains w = true) →
      admin_update_booking bookings true bid data false nowIso =
        (HttpResp.ok200 (apply_booking_update b (lookupField data "status")
            (lookupField data "deposit_status") (lookupField data "notes") nowIso),
         update_where_id bookings bid (fun x => apply_booking_update x
           (lookupField data "status") (lookupField data "deposit_status")
           (lookupField data "notes") nowIso))) ∧
    (∀ (b : Booking) (s d n : Option String) (nowIso : String),
      (apply_booking_update b s d n nowIso).id = b.id ∧
      (apply_booking_update b s d n nowIso).car_id = b.car_id ∧
      (apply_booking_update b s d n nowIso).start_date = b.start_date ∧
      (apply_booking_update b s d n nowIso).end_date = b.end_date ∧
      (apply_booking_update b s d n nowIso).total_price = b.total_price ∧
      (apply_booking_update b s d n nowIso).client_last_name = b.client_last_name ∧
      (apply_booking_update b s d n nowIso).client_first_name = b.client_first_name ∧
      (apply_booking_update b s d n nowIso).client_email = b.client_email ∧
      (apply_booking_update b s d n nowIso).client_phone = b.client_phone ∧
      (apply_booking_update b s d n nowIso).payment_method = b.payment_method ∧
      (apply_booking_update b s d n nowIso).deposit_amount = b.deposit_amount ∧
      (apply_booking_update b s d n nowIso).ip_address = b.ip_address ∧
      (apply_booking_update b s d n nowIso).created_at = b.created_at) ∧
    (∀ (bookings : List Booking) (validUuid : Bool) (bid : String)
       (data : List (String × String)) (fault : Bool) (nowIso : String) (k v : String),
      data.isEmpty = false → k ≠ "status" → k ≠ "deposit_status" → k ≠ "notes" →
      admin_update_booking bookings validUuid bid (data ++ [(k, v)]) fault nowIso =
        admin_update_booking bookings validUuid bid data fault nowIso) := by
  refine ⟨?_, ?_, ?_, ?_, ?_, ?_⟩
  · intro bookings bid data fault nowIso hfind
    simp [admin_update_booking, hfind]
  · intro bookings bid data fault nowIso b v hfind hdata hv hbad
    have hv' : v ∉ valid_statuses := by simpa using hbad
    simp [admin_update_booking, hfind, hdata, hv, hv']
  · intro bookings bid data fault nowIso b v hfind hdata hs hv hbad
    have hv' : v ∉ valid_deposit_statuses := by simpa using hbad
    rcases hstat : lookupField data "status" with _ | w
    · simp [admin_update_booking, hfind, hdata, hstat, hv, hv']
    · have h1 : w ∈ valid_statuses := by simpa using hs w hstat
      simp [admin_update_booking, hfind, hdata, hstat, h1, hv, hv']
  · intro bookings bid data nowIso b hfind hdata hfields hs hd
    exact admin_update_booking_success_eq bookings bid data nowIso b hfind hdata hfields hs hd
  · intro b s d n nowIso
    exact ⟨rfl, rfl, rfl, rfl, rfl, rfl, rfl, rfl, rfl, rfl, rfl, rfl, rfl⟩
  · intro bookings validUuid bid data fault nowIso k v hdata hk1 hk2 hk3
    have l1 := lookupField_append_of_ne data "status" k v hk1
    have l2 := lookupField_append_of_ne data "deposit_status" k v hk2
    have l3 := lookupField_append_of_ne data "notes" k v hk3
    have hdata2 : (data ++ [(k, v)]).isEmpty = false := by
      cases data <;> simp_all
    unfold admin_update_booking
    rw [l1, l2, l3, hdata, hdata2]

/-- A concrete admin-update body: a notes change plus a key outside the
editable set. -/
def dataNotes : List (String × String) := [("notes", "called client"), ("junk", "x")]

/-- Witness for C9: at the concrete booking table, updating only the notes
succeeds with 200 and rewrites exactly the matched row. -/
theorem admin_update_contract_witness :
    admin_update_booking [booking1] true "bk-1" dataNotes false "2024-06-21T10:00:00" =
      (HttpResp.ok200 (apply_booking_update booking1 (lookupField dataNotes "status")
          (lookupField dataNotes "deposit_status") (lookupField dataNotes "notes")
          "2024-06-21T10:00:00"),
       update_where_id [booking1] "bk-1" (fun x => apply_booking_update x
         (lookupField dataNotes "status") (lookupField dataNotes "deposit_status")
         (lookupField dataNotes "notes") "2024-06-21T10:00:00")) :=
  admin_update_contract.2.2.2.1 [booking1] "bk-1" dataNotes "2024-06-21T10:00:00" booking1
    rfl rfl (by decide)
    (fun _ hw => Option.noConfusion hw) (fun _ hw => Option.noConfusion hw)

/-! ### Claim C10: soft deletion -/

/-- Membership in an admin-update result: a "deleted" row in the updated table
was already "deleted" before, because the admin status enumeration does not
contain "deleted". -/
theorem mem_update_where_deleted (bookings : List Booking) (bid : String)
    (s d n : Option String) (nowIso : String)
    (hs : ∀ v, s = some v → valid_statuses.contains v = true)
    (b' : Booking)
    (hmem : b' ∈ update_where_id bookings bid (fun x => apply_booking_update x s d n nowIso))
    (hdel : b'.status = "deleted") :
    ∃ x ∈ bookings, x.id = b'.id ∧ x.status = "deleted" := by
  simp only [update_where_id, List.mem_map] at hmem
  obtain ⟨x, hx, hxe⟩ := hmem
  by_cases hxid : (x.id == bid) = true
  · rw [if_pos hxid] at hxe
    subst hxe
    cases hS : s with
    | none =>
        refine ⟨x, hx, rfl, ?_⟩
        simpa [apply_booking_update, hS] using hdel
    | some v =>
        exfalso
        have hv := hs v hS
        have hveq : v = "deleted" := by
          simpa [apply_booking_update, hS] using hdel
        rw [hveq] at hv
        simp [valid_statuses] at hv
  · rw [if_neg hxid] at hxe
    subst hxe
    exact ⟨x, hx, rfl, hdel⟩

/-- Claim C10 (with the PATCH route handler modelled from the spec, the rest
from src): the soft-delete action sets status "deleted" on the matched row
without removing any row; a second soft-delete of an already-deleted booking
is rejected with 400 and changes nothing; neither `create_booking` (rows are
born "pending") nor the admin PUT update (whose status enumeration excludes
"deleted") can make a row "deleted" that was not already; and a "deleted"
booking never counts toward the availability overlap check. -/
theorem soft_delete_contract :
    (∀ (bookings : List Booking) (bid : String) (nowIso : String) (b : Booking),
      bookings.find? (fun x => x.id == bid) = some b → b.status = "deleted" →
      admin_patch_delete_booking bookings bid (some "deleted") nowIso =
        (HttpResp.badRequest "Booking already deleted", bookings)) ∧
    (∀ (bookings : List Booking) (bid : String) (nowIso : String) (b : Booking),
      bookings.find? (fun x => x.id == bid) = some b → b.status ≠ "deleted" →
      admin_patch_delete_booking bookings bid (some "deleted") nowIso =
        (HttpResp.ok200 { b with status := "deleted", updated_at := nowIso },
         update_where_id bookings bid
           (fun x => { x with status := "deleted", updated_at := nowIso }))) ∧
    (∀ (st : ServerState) (env : Env) (b' : Booking),
      b' ∈ (create_booking st env).2.bookings → b'.status = "deleted" →
      b' ∈ st.bookings) ∧
    (∀ (bookings : List Booking) (u : Bool) (bid : String)
       (data : List (String × String)) (fault : Bool) (nowIso : String) (b' : Booking),
      b' ∈ (admin_update_booking bookings u bid data fault nowIso).2 →
      b'.status = "deleted" → ∃ x ∈ bookings, x.id = b'.id ∧ x.status = "deleted") ∧
    (∀ (b : Booking) (bookings : List Booking) (carId : String) (s e : Date),
      b.status = "deleted" →
      check_car_availability_atomic (b :: bookings) false carId s e =
        check_car_availability_atomic bookings false carId s e) := by
  refine ⟨?_, ?_, ?_, ?_, ?_⟩
  · intro bookings bid nowIso b hfind hdel
    simp [admin_patch_delete_booking, hfind, hdel]
  · intro bookings bid nowIso b hfind hdel
    have hne : (b.status == "deleted") = false := by
      simpa using hdel
    have hmap := find_map_update bid
      (fun x => { x with status := "deleted", updated_at := nowIso })
      (fun _ => rfl) bookings b hfind
    simp [admin_patch_delete_booking, DatabaseService.soft_delete_booking, hfind, hne, hmap]
  · intro st env b' hmem hdel
    rcases create_booking_cases st env with h | ⟨req, car, _, _, h⟩
    · rwa [h] at hmem
    · rw [h] at hmem
      rcases List.mem_append.mp hmem with hmem | hmem
      · exact hmem
      · exfalso
        have hb : b' = new_booking_row env req car := by simpa using hmem
        rw [hb] at hdel
        simp [new_booking_row] at hdel
  · intro bookings u bid data fault nowIso b' hmem hdel
    unfold admin_update_booking at hmem
    split at hmem
    · exact ⟨b', hmem, rfl, hdel⟩
    · split at hmem
      · exact ⟨b', hmem, rfl, hdel⟩
      · split at hmem
        · exact ⟨b', hmem, rfl, hdel⟩
        · dsimp only at hmem
          split at hmem
          · exact ⟨b', hmem, rfl, hdel⟩
          · split at hmem
            · exact ⟨b', hmem, rfl, hdel⟩
            · next hguard =>
                have hs : ∀ v, lookupField data "status" = some v →
                    valid_statuses.contains v = true := by
                  intro v hv
                  rw [hv] at hguard
                  simpa using hguard
                split at hmem
                · exact ⟨b', hmem, rfl, hdel⟩
                · split at hmem
                  · exact ⟨b', hmem, rfl, hdel⟩
                  · split at hmem <;>
                      exact mem_update_where_deleted bookings bid
                        (lookupField data "status") (lookupField data "deposit_status")
                        (lookupField data "notes") nowIso hs b' hmem hdel
  · intro b bookings carId s e hdel
    have hb : overlap_filter carId s e b = false := by
      simp [overlap_filter, hdel]
    simp [check_car_availability_atomic, List.filter_cons, hb]

/-- Witness for C10: the second soft-delete of the concrete deleted booking is
rejected with 400 and the table is unchanged. -/
theorem soft_delete_contract_witness :
    admin_patch_delete_booking [bookingDel] "bk-del" (some "deleted") "ts" =
      (HttpResp.badRequest "Booking already deleted", [bookingDel]) :=
  soft_delete_contract.1 [bookingDel] "bk-del" "ts" bookingDel rfl rfl

end SofCar
